import Mathlib

/-!
Shallow embedding of `src/klayout/python/kai.py` (the kAI assistant plugin):
the session store (`chat_history`), the transcript-persistence operations
(`store_chat_history`, `closeEvent`), the config loader (`load_config`),
the guarded read paths (`load_selected_history`, `view_config_file`), and
the submit handler (`on_submit`).

Nondeterministic inputs of the Python code are passed explicitly:
`datetime.now()` timestamps become string parameters taken at the same
program points where the code calls `get_timestamp()` /
`strftime('%Y%m%d_%H%M%S')`, and the external OpenAI call becomes an
`Option String` outcome (`some response`, or `none` when the call raises).
The file system is a map from file names to contents together with a flag
recording whether the history directory exists.
-/

namespace Kai

/-- A chat message as stored in `self.chat_history`: a dict with exactly the
keys `role` and `content`.  No timestamp is stored in memory. -/
structure Message where
  role : String
  content : String
deriving DecidableEq, Repr

/-- The user-message dict `\x7b"role": "user", "content": prompt\x7d` appended
by `on_submit`. -/
def userMsg (content : String) : Message :=
  { role := "user", content := content }

/-- The assistant-message dict `\x7b"role": "assistant", "content": response\x7d`
appended by `on_submit`. -/
def asstMsg (content : String) : Message :=
  { role := "assistant", content := content }

/-- The file system visible to the plugin: `historyDirExists` models whether
the `history` directory exists, `files` maps file names to their contents. -/
structure FS where
  historyDirExists : Bool
  files : List (String × String)
deriving DecidableEq, Repr

/-- Content of a file, `none` when it does not exist (`Path.exists()` is
`(fs.get name).isSome`). -/
def FS.get (fs : FS) (name : String) : Option String :=
  fs.files.lookup name

/-- Python `open(path, 'w')` + `write`: create or overwrite. -/
def FS.write (fs : FS) (name content : String) : FS :=
  { fs with files := (name, content) :: fs.files.filter (fun p => p.1 != name) }

/-- Python `open(path, 'a')` + `write`: append to the existing content,
creating the file when absent. -/
def FS.append (fs : FS) (name content : String) : FS :=
  fs.write name (((fs.get name).getD "") ++ content)

/-- The whole mutable state of the `kai_ui` dialog that the claims concern:
the config-derived fields, the in-memory history, the output-area lines, and
the file system. -/
structure UIState where
  api_key : String
  model_name : String
  chat_history : List Message
  output : List String
  fs : FS
deriving DecidableEq, Repr

/-- The user line `f"User [{self.get_timestamp()}]: {prompt}"` built in
`on_submit`. -/
def userEntry (ts prompt : String) : String :=
  "User [" ++ ts ++ "]: " ++ prompt

/-- The assistant line `f"AI [{self.get_timestamp()}]: {response}"` built in
`on_submit`.  The label is the literal `AI`. -/
def aiEntry (ts response : String) : String :=
  "AI [" ++ ts ++ "]: " ++ response

/-- Incremental-file name `f'kai_{timestamp}.txt'` built in
`store_chat_history` from the timestamp taken at write time. -/
def incrementalFileName (ts : String) : String :=
  "kai_" ++ ts ++ ".txt"

/-- Consolidated-file name `f'kai_complete_{timestamp}.txt'` built in
`closeEvent`. -/
def consolidatedFileName (ts : String) : String :=
  "kai_complete_" ++ ts ++ ".txt"

/-- Python `str.capitalize()`: first character upper-cased, the rest
lower-cased. -/
def pyCapitalize (s : String) : String :=
  match s.data with
  | [] => ""
  | c :: cs => String.mk (c.toUpper :: cs.map Char.toLower)

/-- The consolidated-file line
`f"{message['role'].capitalize()} [{self.get_timestamp()}]: {message['content']}"`
built in `closeEvent`; `ts` is the `get_timestamp()` value at close time. -/
def displayLineClose (ts : String) (m : Message) : String :=
  pyCapitalize m.role ++ " [" ++ ts ++ "]: " ++ m.content

/-- One `===`-delimited block as written by the three `file.write` calls of
`store_chat_history` (their concatenation on the single open handle). -/
def pairBlock (uEntry aEntry : String) : String :=
  uEntry ++ "\n" ++ aEntry ++ "\n" ++ "===\n"

/-- `store_chat_history(user_entry, ai_entry)`: `mkdir(exist_ok=True)` on the
history directory, then append the two lines and the `===` separator to
`kai_<fileTs>.txt`, where `fileTs` is `strftime('%Y%m%d_%H%M%S')` evaluated
at this call (the code recomputes it on every call). -/
def store_chat_history (fs : FS) (fileTs uEntry aEntry : String) : FS :=
  FS.append { fs with historyDirExists := true }
    (incrementalFileName fileTs) (pairBlock uEntry aEntry)

/-- Result of one `on_submit` invocation: the state afterwards, the
`messages` list passed to the OpenAI call (when one was made), and whether an
exception propagated out of the handler. -/
structure SubmitResult where
  state : UIState
  aiRequest : Option (List Message)
  raised : Bool
deriving DecidableEq, Repr

/-- `on_submit`: guarded by `if prompt and self.api_key != 'Not set'`.  On
the happy path it appends the user message, echoes the user line, calls the
AI with the whole `chat_history`, appends the assistant message, echoes the
assistant line and `===`, and stores the pair incrementally.  `outcome` is
the external call's result; `none` models the call raising, in which case the
user message is already appended and nothing is written to disk. -/
def on_submit (st : UIState) (prompt : String) (outcome : Option String)
    (userTs aiTs fileTs : String) : SubmitResult :=
  if prompt ≠ "" ∧ st.api_key ≠ "Not set" then
    let history1 := st.chat_history ++ [userMsg prompt]
    let uE := userEntry userTs prompt
    match outcome with
    | none =>
      { state := { st with chat_history := history1, output := st.output ++ [uE] }
        aiRequest := some history1
        raised := true }
    | some response =>
      let aE := aiEntry aiTs response
      { state := { st with
          chat_history := history1 ++ [asstMsg response]
          output := st.output ++ [uE] ++ [aE, "==="]
          fs := store_chat_history st.fs fileTs uE aE }
        aiRequest := some history1
        raised := false }
  else
    { state := st, aiRequest := none, raised := false }

/-- Python `"\n".join(parts)`. -/
def joinLines : List String → String
  | [] => ""
  | [x] => x
  | x :: y :: ys => x ++ "\n" ++ joinLines (y :: ys)

/-- `closeEvent`: when `chat_history` is nonempty, format every message via
the close-time display line and write the joined result to the consolidated
file with `open(path, 'w')`.  The write raises (`Except.error`) when the
history directory does not exist, since `closeEvent` never creates it. -/
def closeEvent (st : UIState) (lineTs fileTs : String) : Except String UIState :=
  if st.chat_history ≠ [] then
    if st.fs.historyDirExists then
      let content := joinLines (st.chat_history.map (displayLineClose lineTs))
      Except.ok { st with fs := st.fs.write (consolidatedFileName fileTs) content }
    else
      Except.error "FileNotFoundError"
  else
    Except.ok st

/-- Split a character list into the segments between `'\n'` characters; the
segments do not contain the terminators.  Used to count the lines of a file
and to model Python's line iteration over a file. -/
def splitNl : List Char → List (List Char)
  | [] => [[]]
  | c :: cs =>
    if c = '\n' then [] :: splitNl cs
    else
      match splitNl cs with
      | [] => [[c]]
      | p :: ps => (c :: p) :: ps

/-- Number of newline-separated lines of a string. -/
def lineCount (s : String) : Nat :=
  (splitNl s.data).length

/-- Split a character list at the first occurrence of `c`; `none` when `c`
does not occur.  Models `':' in line` followed by `line.split(':', 1)`. -/
def splitAtFirst (c : Char) : List Char → Option (List Char × List Char)
  | [] => none
  | x :: xs =>
    if x = c then some ([], xs)
    else (splitAtFirst c xs).map (fun p => (x :: p.1, p.2))

/-- Python `str.strip()` (no argument): remove leading and trailing
whitespace characters. -/
def stripChars (l : List Char) : List Char :=
  (((l.dropWhile Char.isWhitespace).reverse).dropWhile Char.isWhitespace).reverse

/-- Python dict assignment `d[k] = v` on an association list: the new binding
shadows any older one. -/
def dictInsert (d : List (String × String)) (k v : String) :
    List (String × String) :=
  (k, v) :: d.filter (fun p => p.1 != k)

/-- One iteration of the `for line in file` loop of `load_config`: skip the
line unless it contains a colon, otherwise split at the first colon and store
the stripped key and value. -/
def parseConfigLine (d : List (String × String)) (line : String) :
    List (String × String) :=
  match splitAtFirst ':' line.data with
  | none => d
  | some (k, v) => dictInsert d (String.mk (stripChars k)) (String.mk (stripChars v))

/-- Result of `load_config`: the mapping plus the two recognized fields with
their `'Not set'` defaults. -/
structure Config where
  data : List (String × String)
  api_key : String
  model_name : String
deriving DecidableEq, Repr

/-- `load_config`: `fileText` is the content of `config.yml` when it exists
(`config_path.exists()` guard), `none` otherwise.  Parses every line at its
first colon, strips key and value, and defaults `api_key` and `model_name`
to `'Not set'`. -/
def load_config (fileText : Option String) : Config :=
  let d :=
    match fileText with
    | none => []
    | some text => ((splitNl text.data).map String.mk).foldl parseConfigLine []
  { data := d
    api_key := (d.lookup "api_key").getD "Not set"
    model_name := (d.lookup "model_name").getD "Not set" }

/-- Python `open(path, 'r').read()`: raises `FileNotFoundError` when the
file is absent. -/
def openRead (fs : FS) (name : String) : Except String String :=
  match fs.get name with
  | some c => Except.ok c
  | none => Except.error "FileNotFoundError"

/-- `load_selected_history` with `fileName` selected in the history list:
the read of `<fileName>.txt` is guarded by `file_path.exists()`; the result
is the dialog text shown (`some` content), or `none` when nothing happens
because the file is missing. -/
def load_selected_history (fs : FS) (fileName : String) :
    Except String (Option String) :=
  if (fs.get (fileName ++ ".txt")).isSome then
    match openRead fs (fileName ++ ".txt") with
    | Except.ok c => Except.ok (some c)
    | Except.error e => Except.error e
  else
    Except.ok none

/-- `view_config_file`: the read of `config.yml` is guarded by
`config_path.exists()`; the result is the dialog text shown (`some`
content), or `none` when the file is missing. -/
def view_config_file (fs : FS) (configPath : String) :
    Except String (Option String) :=
  if (fs.get configPath).isSome then
    match openRead fs configPath with
    | Except.ok c => Except.ok (some c)
    | Except.error e => Except.error e
  else
    Except.ok none

/-- One submitted turn: the prompt, the external call's outcome, and the
three timestamps the code reads during the turn. -/
structure Turn where
  prompt : String
  outcome : Option String
  userTs : String
  aiTs : String
  fileTs : String
deriving DecidableEq, Repr

/-- Run a sequence of submit events from a state. -/
def runTurns (st : UIState) : List Turn → UIState
  | [] => st
  | t :: ts => runTurns (on_submit st t.prompt t.outcome t.userTs t.aiTs t.fileTs).state ts

/-- The block a successful turn appends to its incremental file. -/
def turnBlock (t : Turn) : String :=
  pairBlock (userEntry t.userTs t.prompt) (aiEntry t.aiTs (t.outcome.getD ""))

/-- Concatenation of a list of strings (in order). -/
def concatAll : List String → String
  | [] => ""
  | x :: xs => x ++ concatAll xs

/-- Looking up a key survives filtering out the entries of a different key. -/
theorem lookup_filter_ne (l : List (String × String)) (m n : String) (h : m ≠ n) :
    (l.filter (fun p => p.1 != n)).lookup m = l.lookup m := by
  induction l with
  | nil => rfl
  | cons p l ih =>
    obtain ⟨k, v⟩ := p
    by_cases hk : k = n
    · subst hk
      have h1 : (((k, v) : String × String).1 != k) = false := by simp
      have h2 : (m == k) = false := by simp [h]
      simp [List.filter_cons, h1, List.lookup, h2, ih]
    · have h1 : (((k, v) : String × String).1 != n) = true := by simp [hk]
      cases hmk : (m == k) <;> simp [List.filter_cons, h1, List.lookup, hmk, ih]

/-- Writing a file then reading it back yields the written content. -/
theorem FS.get_write_self (fs : FS) (n c : String) : (fs.write n c).get n = some c := by
  simp [FS.get, FS.write, List.lookup]

/-- Writing a file leaves every other file unchanged. -/
theorem FS.get_write_ne (fs : FS) (n m c : String) (h : m ≠ n) :
    (fs.write n c).get m = fs.get m := by
  have : (m == n) = false := by simp [h]
  simp [FS.get, FS.write, List.lookup, this, lookup_filter_ne _ _ _ h]

/-- Content of the incremental file after one `store_chat_history` call: the
previous content (empty when the file did not exist) followed by the new
block. -/
theorem store_chat_history_get (fs : FS) (fts u a : String) :
    (store_chat_history fs fts u a).get (incrementalFileName fts) =
      some (((fs.get (incrementalFileName fts)).getD "") ++ pairBlock u a) := by
  simp only [store_chat_history, FS.append]
  rw [FS.get_write_self]
  rfl

/-- `store_chat_history` ensures the history directory exists. -/
theorem store_chat_history_dir (fs : FS) (fts u a : String) :
    (store_chat_history fs fts u a).historyDirExists = true := by
  simp [store_chat_history, FS.append, FS.write]

/-- Equation for `on_submit` on the happy path. -/
theorem on_submit_success (st : UIState) (p r uTs aTs fTs : String)
    (hp : p ≠ "") (hk : st.api_key ≠ "Not set") :
    on_submit st p (some r) uTs aTs fTs =
      { state := { st with
          chat_history :=
            st.chat_history ++ [userMsg p, asstMsg r]
          output := st.output ++ [userEntry uTs p, aiEntry aTs r, "==="]
          fs := store_chat_history st.fs fTs (userEntry uTs p) (aiEntry aTs r) }
        aiRequest := some (st.chat_history ++ [userMsg p])
        raised := false } := by
  simp [on_submit, hp, hk]

/-- The dialog state left behind when the AI call of a turn raises: the user
message and the echoed user line are already appended, nothing else moved. -/
def failedState (st : UIState) (p uTs : String) : UIState :=
  { st with
    chat_history := st.chat_history ++ [userMsg p]
    output := st.output ++ [userEntry uTs p] }

/-- Equation for `on_submit` when the external call raises. -/
theorem on_submit_raise (st : UIState) (p uTs aTs fTs : String)
    (hp : p ≠ "") (hk : st.api_key ≠ "Not set") :
    on_submit st p none uTs aTs fTs =
      { state := failedState st p uTs
        aiRequest := some (st.chat_history ++ [userMsg p])
        raised := true } := by
  simp [on_submit, failedState, hp, hk]

/-- The dialog state after `closeEvent` has written the consolidated file. -/
def closedState (st : UIState) (lineTs cTs : String) : UIState :=
  { st with
    fs := st.fs.write (consolidatedFileName cTs)
      (joinLines (st.chat_history.map (displayLineClose lineTs))) }

/-- Equation for `closeEvent` on a nonempty session with the directory
present. -/
theorem closeEvent_ok (st : UIState) (lineTs cTs : String)
    (hne : st.chat_history ≠ []) (hdir : st.fs.historyDirExists = true) :
    closeEvent st lineTs cTs = Except.ok (closedState st lineTs cTs) := by
  simp [closeEvent, closedState, hne, hdir]

/-- Splitting at newlines peels off a newline-free first segment. -/
theorem splitNl_sep (a b : List Char) (h : '\n' ∉ a) :
    splitNl (a ++ '\n' :: b) = a :: splitNl b := by
  induction a with
  | nil => simp [splitNl]
  | cons c cs ih =>
    have hc : ¬c = '\n' := fun e => h (e ▸ List.mem_cons_self c cs)
    have hcs : '\n' ∉ cs := fun hm => h (List.mem_cons_of_mem c hm)
    simp only [List.cons_append, splitNl, if_neg hc, List.append_eq]
    rw [ih hcs]

/-- A newline-free character list is a single line. -/
theorem splitNl_nonl (a : List Char) (h : '\n' ∉ a) : splitNl a = [a] := by
  induction a with
  | nil => rfl
  | cons c cs ih =>
    have hc : ¬c = '\n' := fun e => h (e ▸ List.mem_cons_self c cs)
    have hcs : '\n' ∉ cs := fun hm => h (List.mem_cons_of_mem c hm)
    simp only [splitNl, if_neg hc, ih hcs]

/-- Splitting the join of nonempty, newline-free parts recovers the parts. -/
theorem splitNl_joinLines (parts : List String) (hne : parts ≠ [])
    (h : ∀ p ∈ parts, '\n' ∉ p.data) :
    splitNl (joinLines parts).data = parts.map String.data := by
  induction parts with
  | nil => exact absurd rfl hne
  | cons x xs ih =>
    cases xs with
    | nil =>
      simp only [joinLines, List.map]
      exact splitNl_nonl x.data (h x (List.mem_cons_self x []))
    | cons y ys =>
      have hx : '\n' ∉ x.data := h x (List.mem_cons_self x (y :: ys))
      have hxs : ∀ p ∈ y :: ys, '\n' ∉ p.data :=
        fun p hp => h p (List.mem_cons_of_mem x hp)
      have hdata : (joinLines (x :: y :: ys)).data =
          x.data ++ '\n' :: (joinLines (y :: ys)).data := by
        show (x ++ "\n" ++ joinLines (y :: ys)).data = _
        rw [String.data_append, String.data_append,
          show ("\n" : String).data = ['\n'] from rfl, List.append_assoc]
        rfl
      rw [hdata, splitNl_sep x.data _ hx, ih (by simp) hxs]
      rfl

/-- Line count of the join of nonempty, newline-free parts. -/
theorem lineCount_joinLines (parts : List String) (hne : parts ≠ [])
    (h : ∀ p ∈ parts, '\n' ∉ p.data) :
    lineCount (joinLines parts) = parts.length := by
  unfold lineCount
  rw [splitNl_joinLines parts hne h, List.length_map]

/-- A close-time display line of a user or assistant message contains no
newline when the timestamp and the content do not. -/
theorem displayLineClose_nonl (ts : String) (m : Message)
    (hts : '\n' ∉ ts.data) (hc : '\n' ∉ m.content.data)
    (hr : m.role = "user" ∨ m.role = "assistant") :
    '\n' ∉ (displayLineClose ts m).data := by
  have hcap : '\n' ∉ (pyCapitalize m.role).data := by
    rcases hr with h | h <;> rw [h] <;> decide
  intro hmem
  simp only [displayLineClose, String.data_append, List.mem_append] at hmem
  rcases hmem with ((((h1 | h2) | h3) | h4) | h5)
  · exact hcap h1
  · exact absurd h2 (by decide)
  · exact hts h3
  · exact absurd h4 (by decide)
  · exact hc h5

/-- `on_submit` never changes the configured API key. -/
theorem on_submit_api_key (st : UIState) (p : String) (o : Option String)
    (uTs aTs fTs : String) :
    (on_submit st p o uTs aTs fTs).state.api_key = st.api_key := by
  by_cases h : p ≠ "" ∧ st.api_key ≠ "Not set"
  · rcases o with _ | r <;> simp [on_submit, h]
  · simp [on_submit, h]

/-- A fresh dialog state with a configured API key, an empty session, and no
history directory yet (the state right after `__init__` with a valid
`config.yml`). -/
def freshState : UIState :=
  { api_key := "sk-test", model_name := "gpt-x", chat_history := [], output := []
    fs := { historyDirExists := false, files := [] } }

/-- A state holding the spec's example session `[user:"hi", assistant:"hello"]`
with the history directory present. -/
def exampleState : UIState :=
  { api_key := "sk-test", model_name := "gpt-x"
    chat_history := [userMsg "hi", asstMsg "hello"]
    output := []
    fs := { historyDirExists := true, files := [] } }

/-- C10: submitting with an empty prompt is a complete no-op — whatever the
API key, the outcome of the (never-made) AI call, and the timestamps, the
state (history, output transcript, files) is returned unchanged, no AI
request is issued, and no exception propagates. -/
theorem C10_empty_prompt_noop (st : UIState) (outcome : Option String)
    (uTs aTs fTs : String) :
    on_submit st "" outcome uTs aTs fTs =
      { state := st, aiRequest := none, raised := false } := by
  simp [on_submit]

/-- C5: when the API key is the `'Not set'` sentinel, `on_submit` is detected
before the AI call and skipped silently: no AI request is issued, the state
(message sequence, output, files) is unchanged, and no exception
propagates. -/
theorem C5_missing_key_skips (st : UIState) (prompt : String)
    (outcome : Option String) (uTs aTs fTs : String)
    (h : st.api_key = "Not set") :
    on_submit st prompt outcome uTs aTs fTs =
      { state := st, aiRequest := none, raised := false } := by
  simp [on_submit, h]

/-- Witness for C5 at a concrete state with the sentinel key. -/
theorem C5_missing_key_skips_witness :
    on_submit { freshState with api_key := "Not set" } "hi" (some "hello") "t1" "t2" "F" =
      { state := { freshState with api_key := "Not set" }, aiRequest := none
        raised := false } :=
  C5_missing_key_skips { freshState with api_key := "Not set" } "hi" (some "hello")
    "t1" "t2" "F" rfl

/-- The request handed to the AI call by a proceeding submission. -/
theorem on_submit_request (st : UIState) (prompt : String)
    (outcome : Option String) (uTs aTs fTs : String)
    (hp : prompt ≠ "") (hk : st.api_key ≠ "Not set") :
    (on_submit st prompt outcome uTs aTs fTs).aiRequest =
      some (st.chat_history ++ [userMsg prompt]) := by
  rcases outcome with _ | r <;> simp [on_submit, hp, hk]

/-- C4: whenever a submission proceeds, the `messages` sequence handed to the
AI call is exactly the in-memory `chat_history` at call time — the previous
messages followed by the just-appended user message, each a bare
role/content pair (the `Message` type has no other field), with no
truncation. -/
theorem C4_full_history_replay (st : UIState) (prompt : String)
    (outcome : Option String) (uTs aTs fTs : String)
    (hp : prompt ≠ "") (hk : st.api_key ≠ "Not set") :
    (on_submit st prompt outcome uTs aTs fTs).aiRequest =
      some (st.chat_history ++ [userMsg prompt]) :=
  on_submit_request st prompt outcome uTs aTs fTs hp hk

/-- Witness for C4: from the spec's example session `[user:"hi",
assistant:"hello"]`, the next submission sends exactly those two
role/content pairs followed by the new user message, in order. -/
theorem C4_full_history_replay_witness :
    (on_submit exampleState "next" (some "r") "t1" "t2" "F").aiRequest =
      some [userMsg "hi", asstMsg "hello", userMsg "next"] :=
  C4_full_history_replay exampleState "next" (some "r") "t1" "t2" "F"
    (by decide) (by decide)

/-- C7: both guarded read paths are total: when the file exists its full
text is returned (shown in the dialog), and when it does not the operation
yields the not-found outcome `none` instead of the `FileNotFoundError` that
an unguarded `open` (`openRead`) would raise. -/
theorem C7_guarded_reads (fs : FS) (fileName configPath : String) :
    load_selected_history fs fileName = Except.ok (fs.get (fileName ++ ".txt")) ∧
    view_config_file fs configPath = Except.ok (fs.get configPath) := by
  constructor
  · unfold load_selected_history openRead
    cases h : fs.get (fileName ++ ".txt") <;> simp [h]
  · unfold view_config_file openRead
    cases h : fs.get configPath <;> simp [h]

/-- C6: config loading parses each line at its first colon (general fact on
`splitAtFirst`), trims surrounding whitespace from key and value, retains
unknown keys, and yields the `'Not set'` sentinel for both `api_key` and
`model_name` when the file is missing or a key is absent; on the spec's
example file the two recognized keys come out verbatim. -/
theorem C6_load_config :
    (load_config none).api_key = "Not set" ∧
    (load_config none).model_name = "Not set" ∧
    (load_config (some "api_key: abc123\nmodel_name: gpt-x")).api_key = "abc123" ∧
    (load_config (some "api_key: abc123\nmodel_name: gpt-x")).model_name = "gpt-x" ∧
    (load_config (some "custom :  a:b \napi_key: k")).data.lookup "custom" = some "a:b" ∧
    (load_config (some "custom :  a:b \napi_key: k")).model_name = "Not set" ∧
    (∀ ks vs : List Char, ':' ∉ ks →
      splitAtFirst ':' (ks ++ ':' :: vs) = some (ks, vs)) := by
  refine ⟨by decide, by decide, by decide, by decide, by decide, by decide, ?_⟩
  intro ks vs hks
  induction ks with
  | nil => simp [splitAtFirst]
  | cons c cs ih =>
    have hc : ¬c = ':' := fun e => hks (e ▸ List.mem_cons_self c cs)
    have hcs : ':' ∉ cs := fun hm => hks (List.mem_cons_of_mem c hm)
    simp [splitAtFirst, hc, ih hcs]

/-- Witness for C6's quantified first-colon clause at a concrete line. -/
theorem C6_load_config_witness :
    (':' ∉ ['k', 'e', 'y']) ∧
    splitAtFirst ':' (['k', 'e', 'y'] ++ ':' :: ['v', ':', 'w']) =
      some (['k', 'e', 'y'], ['v', ':', 'w']) :=
  ⟨by decide, C6_load_config.2.2.2.2.2.2 ['k', 'e', 'y'] ['v', ':', 'w'] (by decide)⟩

/-- C9: only `store_chat_history` creates the history directory
(`mkdir(exist_ok=True)`); `closeEvent` does not, so closing with a nonempty
session succeeds exactly when the directory already exists, and raises an
unhandled `FileNotFoundError` otherwise. -/
theorem C9_dir_creation (fs : FS) (fts u a : String) (st : UIState)
    (lineTs cTs : String) (hne : st.chat_history ≠ []) :
    (store_chat_history fs fts u a).historyDirExists = true ∧
    (st.fs.historyDirExists = false →
      closeEvent st lineTs cTs = Except.error "FileNotFoundError") ∧
    (st.fs.historyDirExists = true →
      ∃ st', closeEvent st lineTs cTs = Except.ok st') := by
  refine ⟨store_chat_history_dir fs fts u a, ?_, ?_⟩
  · intro hdir
    simp [closeEvent, hne, hdir]
  · intro hdir
    exact ⟨closedState st lineTs cTs, closeEvent_ok st lineTs cTs hne hdir⟩

/-- Witness for C9 at a one-message state without the directory. -/
theorem C9_dir_creation_witness :
    (store_chat_history freshState.fs "F" "u" "a").historyDirExists = true ∧
    closeEvent { freshState with
        chat_history := [userMsg "hi"] } "T" "F" =
      Except.error "FileNotFoundError" :=
  ⟨(C9_dir_creation freshState.fs "F" "u" "a"
      { freshState with chat_history := [userMsg "hi"] }
      "T" "F" (by decide)).1,
    (C9_dir_creation freshState.fs "F" "u" "a"
      { freshState with chat_history := [userMsg "hi"] }
      "T" "F" (by decide)).2.1 rfl⟩

/-- C8: a turn is not atomic around the AI call.  When the call raises, the
handler has already appended the user message: the exception propagates, the
file system is untouched for that turn, and the orphan user message stays in
`chat_history` — so the next successful submission replays it to the AI, and
a close after the failure writes its display line into the consolidated
file. -/
theorem C8_orphan_user_message (st : UIState) (p1 p2 resp : String)
    (uTs aTs fTs uTs2 aTs2 fTs2 lineTs cTs : String)
    (hp1 : p1 ≠ "") (hp2 : p2 ≠ "") (hk : st.api_key ≠ "Not set")
    (hdir : st.fs.historyDirExists = true) :
    (on_submit st p1 none uTs aTs fTs).raised = true ∧
    (on_submit st p1 none uTs aTs fTs).state.chat_history =
      st.chat_history ++ [userMsg p1] ∧
    (on_submit st p1 none uTs aTs fTs).state.fs = st.fs ∧
    (on_submit (on_submit st p1 none uTs aTs fTs).state p2 (some resp)
        uTs2 aTs2 fTs2).aiRequest =
      some (st.chat_history ++ [userMsg p1, userMsg p2]) ∧
    closeEvent (on_submit st p1 none uTs aTs fTs).state lineTs cTs =
      Except.ok (closedState (on_submit st p1 none uTs aTs fTs).state lineTs cTs) ∧
    (closedState (on_submit st p1 none uTs aTs fTs).state lineTs cTs).fs.get
        (consolidatedFileName cTs) =
      some (joinLines ((st.chat_history ++ [userMsg p1]).map (displayLineClose lineTs))) := by
  rw [on_submit_raise st p1 uTs aTs fTs hp1 hk]
  dsimp only
  refine ⟨rfl, by simp [failedState], rfl, ?_, ?_, ?_⟩
  · rw [on_submit_request (failedState st p1 uTs) p2 (some resp) uTs2 aTs2 fTs2 hp2 hk]
    simp [failedState]
  · exact closeEvent_ok (failedState st p1 uTs) lineTs cTs (by simp [failedState]) hdir
  · simp [closedState, failedState, FS.get_write_self]

/-- Witness for C8: a failed turn then a successful one from the example
fresh state with the directory present. -/
theorem C8_orphan_user_message_witness :
    (on_submit exampleState "q1" none "a" "b" "c").raised = true ∧
    (on_submit exampleState "q1" none "a" "b" "c").state.chat_history =
      exampleState.chat_history ++ [userMsg "q1"] ∧
    (on_submit exampleState "q1" none "a" "b" "c").state.fs = exampleState.fs ∧
    (on_submit (on_submit exampleState "q1" none "a" "b" "c").state "q2" (some "r")
        "d" "e" "f").aiRequest =
      some (exampleState.chat_history ++ [userMsg "q1", userMsg "q2"]) ∧
    closeEvent (on_submit exampleState "q1" none "a" "b" "c").state "T" "F" =
      Except.ok (closedState (on_submit exampleState "q1" none "a" "b" "c").state "T" "F") ∧
    (closedState (on_submit exampleState "q1" none "a" "b" "c").state "T" "F").fs.get
        (consolidatedFileName "F") =
      some (joinLines ((exampleState.chat_history ++ [userMsg "q1"]).map (displayLineClose "T"))) :=
  C8_orphan_user_message exampleState "q1" "q2" "r" "a" "b" "c" "d" "e" "f" "T" "F"
    (by decide) (by decide) (by decide) rfl

/-- C3: a consolidated file is written iff the session holds a message.
With zero messages `closeEvent` leaves the state untouched; with `M ≥ 1`
messages (and the history directory present, cf. C9) it writes
`kai_complete_<cTs>.txt` whose content is every message's display line in
order joined by newline — hence `M` lines and no separator lines, whenever
timestamp and contents are newline-free. -/
theorem C3_consolidated_write (st : UIState) (lineTs cTs : String) :
    (st.chat_history = [] → closeEvent st lineTs cTs = Except.ok st) ∧
    (st.chat_history ≠ [] → st.fs.historyDirExists = true →
      closeEvent st lineTs cTs = Except.ok (closedState st lineTs cTs) ∧
      (closedState st lineTs cTs).fs.get (consolidatedFileName cTs) =
        some (joinLines (st.chat_history.map (displayLineClose lineTs))) ∧
      ('\n' ∉ lineTs.data →
        (∀ m ∈ st.chat_history, '\n' ∉ m.content.data ∧
          (m.role = "user" ∨ m.role = "assistant")) →
        lineCount (joinLines (st.chat_history.map (displayLineClose lineTs))) =
          st.chat_history.length)) := by
  constructor
  · intro h
    simp [closeEvent, h]
  · intro hne hdir
    refine ⟨closeEvent_ok st lineTs cTs hne hdir, ?_, ?_⟩
    · simp [closedState, FS.get_write_self]
    · intro hts hmsgs
      rw [lineCount_joinLines _ (by simpa using hne) ?_, List.length_map]
      intro p hp
      rw [List.mem_map] at hp
      obtain ⟨m, hm, rfl⟩ := hp
      exact displayLineClose_nonl lineTs m hts (hmsgs m hm).1 (hmsgs m hm).2

/-- Witness for C3 at the two-message example session. -/
theorem C3_consolidated_write_witness :
    closeEvent exampleState "T" "F" = Except.ok (closedState exampleState "T" "F") ∧
    (closedState exampleState "T" "F").fs.get (consolidatedFileName "F") =
      some (joinLines (exampleState.chat_history.map (displayLineClose "T"))) ∧
    lineCount (joinLines (exampleState.chat_history.map (displayLineClose "T"))) =
      exampleState.chat_history.length :=
  ⟨((C3_consolidated_write exampleState "T" "F").2 (by decide) rfl).1,
    ((C3_consolidated_write exampleState "T" "F").2 (by decide) rfl).2.1,
    ((C3_consolidated_write exampleState "T" "F").2 (by decide) rfl).2.2
      (by decide) (by decide)⟩

/-- The consolidated-file content produced by running `closeEvent`, `none`
when no consolidated file was created or the write raised. -/
def closeFsContent (st : UIState) (lineTs cTs : String) : Option String :=
  match closeEvent st lineTs cTs with
  | Except.ok s => s.fs.get (consolidatedFileName cTs)
  | Except.error _ => none

/-- C2 is false as stated: the assistant label is never `Ai`.  A successful
turn writes the line `AI [t2]: hello` (literal `AI`) to the incremental
file, and closing the example session writes `Assistant [T]: hello`
(`'assistant'.capitalize()`) to the consolidated file; neither equals the
claimed `Ai [...]` form. -/
theorem C2_counterexample :
    (on_submit freshState "hi" (some "hello") "t1" "t2" "A").state.fs.get
        (incrementalFileName "A") =
      some ("User [t1]: hi" ++ "\n" ++ "AI [t2]: hello" ++ "\n" ++ "===\n") ∧
    ("AI [t2]: hello" : String) ≠ "Ai [t2]: hello" ∧
    closeFsContent exampleState "T" "F" =
      some ("User [T]: hi" ++ "\n" ++ "Assistant [T]: hello") ∧
    ("Assistant [T]: hello" : String) ≠ "Ai [T]: hello" := by
  refine ⟨by decide, by decide, by decide, by decide⟩

/-- C2 (amended): every line written to disk has the shape
`<Label> [<timestamp>]: <content>`, but the labels are `User`/`AI` in the
incremental file (and on screen), while the consolidated file capitalizes
the stored role, giving `User`/`Assistant`; incremental timestamps are taken
when the entry is formatted during the turn, consolidated timestamps at
close time (messages store no timestamp). -/
theorem C2_line_format (ts c : String) :
    userEntry ts c = "User [" ++ ts ++ "]: " ++ c ∧
    aiEntry ts c = "AI [" ++ ts ++ "]: " ++ c ∧
    displayLineClose ts (userMsg c) = "User [" ++ ts ++ "]: " ++ c ∧
    displayLineClose ts (asstMsg c) = "Assistant [" ++ ts ++ "]: " ++ c := by
  refine ⟨rfl, rfl, ?_, ?_⟩
  · show pyCapitalize "user" ++ " [" ++ ts ++ "]: " ++ c = "User [" ++ ts ++ "]: " ++ c
    rw [show pyCapitalize "user" = "User" from by decide]
    rw [show ("User" ++ " [" : String) = "User [" from by decide]
  · show pyCapitalize "assistant" ++ " [" ++ ts ++ "]: " ++ c =
      "Assistant [" ++ ts ++ "]: " ++ c
    rw [show pyCapitalize "assistant" = "Assistant" from by decide]
    rw [show ("Assistant" ++ " [" : String) = "Assistant [" from by decide]

/-- Two successful turns whose write-time timestamps differ. -/
def twoTurns : List Turn :=
  [⟨"hi", some "hello", "t1", "t2", "A"⟩, ⟨"again", some "yo", "t3", "t4", "B"⟩]

/-- C1 is false as stated: `store_chat_history` recomputes the file name's
timestamp on every call, so two prompts submitted in the same session at
different seconds land in two distinct incremental files, each holding one
block — the session's first file does not accumulate the `N = 2` blocks. -/
theorem C1_counterexample :
    (runTurns freshState twoTurns).fs.get (incrementalFileName "A") =
      some (pairBlock (userEntry "t1" "hi") (aiEntry "t2" "hello")) ∧
    (runTurns freshState twoTurns).fs.get (incrementalFileName "B") =
      some (pairBlock (userEntry "t3" "again") (aiEntry "t4" "yo")) ∧
    incrementalFileName "A" ≠ incrementalFileName "B" ∧
    pairBlock (userEntry "t1" "hi") (aiEntry "t2" "hello") ≠
      pairBlock (userEntry "t1" "hi") (aiEntry "t2" "hello") ++
        pairBlock (userEntry "t3" "again") (aiEntry "t4" "yo") := by
  refine ⟨by decide, by decide, by decide, by decide⟩

/-- C1 (amended): each submitted prompt appends exactly one `===`-delimited
block — one `User` line, one `AI` line — to the incremental file named after
the write-time timestamp; all writes sharing one timestamp `T` target the
same file, which therefore contains exactly the blocks of those turns
concatenated in submission order (a single per-session file with all `N`
blocks only when every write of the session shares the timestamp). -/
theorem C1_blocks_per_timestamp (T : String) (turns : List Turn) :
    ∀ st : UIState, st.api_key ≠ "Not set" →
    (∀ t ∈ turns, t.outcome ≠ none ∧ t.prompt ≠ "" ∧ t.fileTs = T) →
    ((runTurns st turns).fs.get (incrementalFileName T)).getD "" =
      ((st.fs.get (incrementalFileName T)).getD "") ++
        concatAll (turns.map turnBlock) := by
  induction turns with
  | nil =>
    intro st _ _
    simp [runTurns, concatAll]
  | cons t ts ih =>
    intro st hapi hok
    obtain ⟨hout, hp, hT⟩ := hok t (List.mem_cons_self t ts)
    cases ho : t.outcome with
    | none => exact absurd ho hout
    | some r =>
      have hok' : ∀ x ∈ ts, x.outcome ≠ none ∧ x.prompt ≠ "" ∧ x.fileTs = T :=
        fun x hx => hok x (List.mem_cons_of_mem t hx)
      simp only [runTurns]
      set st1 := (on_submit st t.prompt t.outcome t.userTs t.aiTs t.fileTs).state
        with hst1
      have hapi1 : st1.api_key ≠ "Not set" := by
        rw [hst1, on_submit_api_key]
        exact hapi
      rw [ih st1 hapi1 hok']
      have hfs : st1.fs.get (incrementalFileName T) =
          some (((st.fs.get (incrementalFileName T)).getD "") ++
            pairBlock (userEntry t.userTs t.prompt) (aiEntry t.aiTs r)) := by
        rw [hst1, ho, on_submit_success st t.prompt r t.userTs t.aiTs t.fileTs hp hapi]
        dsimp only
        rw [hT, store_chat_history_get]
      rw [hfs]
      simp only [Option.getD_some, List.map_cons, concatAll, turnBlock, ho]
      rw [String.append_assoc]

/-- Two successful turns whose write-time timestamps coincide. -/
def sameTsTurns : List Turn :=
  [⟨"hi", some "hello", "t1", "t2", "A"⟩, ⟨"again", some "yo", "t3", "t4", "A"⟩]

/-- Witness for the amended C1: two same-timestamp turns append two blocks
to the one file `kai_A.txt` in submission order. -/
theorem C1_blocks_per_timestamp_witness :
    ((runTurns freshState sameTsTurns).fs.get (incrementalFileName "A")).getD "" =
      ((freshState.fs.get (incrementalFileName "A")).getD "") ++
        concatAll (sameTsTurns.map turnBlock) :=
  C1_blocks_per_timestamp "A" sameTsTurns freshState (by decide) (by decide)

end Kai
